import Mathlib

/-!
Shallow embedding of the "crack the code" board-game engine
(src/game.py and src/tiles.py) and proofs about its specification.

Python lists become Lean lists, the insertion-ordered `dict` of players
becomes an association list, exceptions become an `Except` result paired
with the post-call state, and the in-place `random.shuffle` calls become
explicit shuffle-function parameters that are assumed to permute their
input.  Machine integers are `Int` (Python ints are unbounded).
-/

namespace CrackTheCode

/-- Embeds `Colours` (game.py / tiles.py): the three tile colours. -/
inductive Colours where
  | WHITE
  | BLACK
  | GREEN
deriving DecidableEq, Repr

/-- Embeds the `Tile` value: a number and a colour.  Python `Tile.__eq__`
compares number and colour, which is exactly structural equality here. -/
structure Tile where
  number : Int
  colour : Colours
deriving DecidableEq, Repr

instance : Inhabited Tile := ⟨⟨0, Colours.WHITE⟩⟩

/-- Embeds `Tile.sorting_func`: `number * 10`, plus 1 for BLACK tiles. -/
def Tile.sorting_func (t : Tile) : Int :=
  t.number * 10 + (if t.colour = Colours.BLACK then 1 else 0)

/-- Errors raised by the engine.  `invalidArgument` embeds Python
`ValueError`, `notImplemented` embeds `NotImplementedError`; the message
string distinguishes the failure. -/
inductive GameError where
  | invalidArgument (msg : String)
  | notImplemented (msg : String)
deriving DecidableEq, Repr

/-- Embeds the `Colours(colour)` enum lookup on a string: the enum values
are "white", "black", "green"; any other string raises `ValueError`. -/
def Colours.ofString : String → Option Colours
  | "white" => some Colours.WHITE
  | "black" => some Colours.BLACK
  | "green" => some Colours.GREEN
  | _ => none

/-- The `colour` argument of `Tile.__init__`: either an enum member or a
string to be converted through the enum. -/
inductive ColourArg where
  | enum (c : Colours)
  | str (s : String)
deriving DecidableEq, Repr

/-- Embeds `Tile.__init__` (identical in game.py and tiles.py): validates
the number range first, then converts a string colour through the enum
(unknown strings raise `ValueError`), then checks enum membership (always
true for the three members). -/
def Tile.init (number : Int) (colour : ColourArg) : Except GameError Tile :=
  if number < 0 ∨ number > 9 then
    Except.error (GameError.invalidArgument
      "Number must be between 0 and 9 inclusive")
  else
    match colour with
    | ColourArg.enum c => Except.ok ⟨number, c⟩
    | ColourArg.str s =>
      match Colours.ofString s with
      | some c => Except.ok ⟨number, c⟩
      | none => Except.error (GameError.invalidArgument
          "is not a valid Colours")

/-- Embeds `Player`: held tiles plus guess-status flags. -/
structure Player where
  tiles : List Tile
  made_guess : Bool
  guessed_correctly : Bool
deriving DecidableEq, Repr

/-- Embeds `Player.__init__` as it behaves on a call that passes a tile
list explicitly: flags start false.  (The shared-mutable-default behaviour
of the no-argument call is modelled separately with an explicit store.) -/
def Player.init (tiles : List Tile) : Player :=
  ⟨tiles, false, false⟩

/-- Embeds the `Game` state: the insertion-ordered player dict as an
association list, the solution, and the two clue pools. -/
structure Game where
  players : List (String × Player)
  solution : List Tile
  backlog_clues : List String
  current_clues : List String
deriving DecidableEq, Repr

/-- Embeds `Game.__init__`: all state empty. -/
def Game.init : Game := ⟨[], [], [], []⟩

/-- Python dict read: first (only) binding of the key, if any. -/
def dictGet (d : List (String × Player)) (k : String) : Option Player :=
  match d with
  | [] => none
  | (k', v) :: rest => if k' = k then some v else dictGet rest k

/-- Python dict write: replace in place if the key exists (keeping its
position), else append at the end (insertion order). -/
def dictSet (d : List (String × Player)) (k : String) (v : Player) :
    List (String × Player) :=
  match d with
  | [] => [(k, v)]
  | (k', v') :: rest =>
    if k' = k then (k', v) :: rest else (k', v') :: dictSet rest k v

/-- Boolean tile comparison used for `sorted(..., key=Tile.sorting_func)`. -/
def tileLE (a b : Tile) : Bool := Tile.sorting_func a ≤ Tile.sorting_func b

/-- Embeds Python `sorted(tiles, key=Tile.sorting_func)`. -/
def sortTiles (l : List Tile) : List Tile := l.mergeSort tileLE

/-- Embeds the deck enumeration loop of `new_game`: for each number 0-9 a
WHITE+BLACK pair, except number 5 which contributes two GREEN tiles. -/
def gameTilesDeck : List Tile :=
  (List.range 10).flatMap (fun i =>
    if i ≠ 5 then
      [⟨(i : Int), Colours.WHITE⟩, ⟨(i : Int), Colours.BLACK⟩]
    else
      [⟨(i : Int), Colours.GREEN⟩, ⟨(i : Int), Colours.GREEN⟩])

/-- Embeds Python `str.strip()`: remove leading and trailing whitespace.
Written over the character list so that it evaluates by kernel
reduction. -/
def pyStrip (s : String) : String :=
  ⟨((s.data.dropWhile Char.isWhitespace).reverse.dropWhile
      Char.isWhitespace).reverse⟩

/-- Embeds `Game.new_game`.  The clues file is the list of its lines (the
first line is what `readline` returns); the two `random.shuffle` calls are
passed in as functions, to be assumed permutations in the theorems.
Returns the post-call state paired with the result. -/
def Game.new_game (_g : Game) (num_players : Int) (clues_file : List String)
    (shuffleStr : List String → List String)
    (shuffleTile : List Tile → List Tile) :
    Game × Except GameError (List String) :=
  -- wipe any existing state
  let g : Game := Game.init
  if num_players < 2 ∨ num_players > 4 then
    (g, Except.error (GameError.invalidArgument
      "Number of players must be between 2 and 4 inclusive"))
  else if num_players = 2 then
    (g, Except.error (GameError.notImplemented
      "2 player games are not supported at the moment"))
  else if pyStrip (clues_file.headD "") ≠ "IS_CLUES_FILE" then
    (g, Except.error (GameError.invalidArgument "Invalid clues file"))
  else
    let shuffledClues := shuffleStr (clues_file.tail.map pyStrip)
    let takeN := min 6 shuffledClues.length
    let current := shuffledClues.take takeN
    let backlog := shuffledClues.drop takeN
    let shuffled := shuffleTile gameTilesDeck
    let num_tiles_pp : Nat := if num_players < 4 then 5 else 4
    let split := (List.range (num_players.toNat + 1)).map
      (fun i => (shuffled.drop (i * num_tiles_pp)).take num_tiles_pp)
    let solution := sortTiles (split.headD [])
    let players := (split.tail.enum).foldl
      (fun ps it =>
        dictSet ps ("token" ++ toString it.1) (Player.init (sortTiles it.2)))
      []
    (⟨players, solution, backlog, current⟩, Except.ok (players.map (·.1)))

/-- Embeds `Game.get_character_tiles`. -/
def Game.get_character_tiles (g : Game) (player_id : String) :
    Except GameError (List Tile) :=
  match dictGet g.players player_id with
  | none => Except.error (GameError.invalidArgument "Player ID is invalid")
  | some p => Except.ok p.tiles

/-- Embeds `Game.submit_solution`: id must exist, the player must not have
guessed; then `made_guess` is set, and `guessed_correctly` is set when the
submission equals the solution as an ordered list. -/
def Game.submit_solution (g : Game) (player_id : String)
    (submission : List Tile) : Game × Except GameError Unit :=
  match dictGet g.players player_id with
  | none => (g, Except.error (GameError.invalidArgument
      "Player ID is invalid"))
  | some p =>
    if p.made_guess then
      (g, Except.error (GameError.invalidArgument
        "Player has already submitted a guess"))
    else
      let p' : Player :=
        { p with
          made_guess := true
          guessed_correctly :=
            if submission = g.solution then true else p.guessed_correctly }
      ({ g with players := dictSet g.players player_id p' }, Except.ok ())

/-- Embeds `Game.get_winners`. -/
def Game.get_winners (g : Game) : List String :=
  (g.players.filter (fun pr => pr.2.guessed_correctly)).map (·.1)

/-- Embeds `Game.expend_clue`: bounds-check the index, then overwrite the
slot with the popped front of the backlog, or with `""` when the backlog
is empty. -/
def Game.expend_clue (g : Game) (idx : Int) : Game × Except GameError Unit :=
  if idx < 0 ∨ idx ≥ (g.current_clues.length : Int) then
    (g, Except.error (GameError.invalidArgument "Index is invalid"))
  else
    match g.backlog_clues with
    | [] =>
      ({ g with current_clues := g.current_clues.set idx.toNat "" },
       Except.ok ())
    | c :: rest =>
      ({ g with
          backlog_clues := rest
          current_clues := g.current_clues.set idx.toNat c },
       Except.ok ())

/-- Answer of a clue evaluator (tiles.py): sums and counts answer with an
integer, adjacency queries with a list of indices treated as a set. -/
inductive QueryAnswer where
  | int (n : Int)
  | indices (l : List Nat)
deriving DecidableEq, Repr

/-- Embeds the `Query` family of tiles.py: a human-readable description
plus the `answer` evaluator over an ordered tile sequence. -/
structure Query where
  description : String
  answer : List Tile → QueryAnswer

/-- Embeds `SumQuery(location, subset_func)`: answers the sum of the
numbers of the tiles selected by `subset_func`. -/
def SumQuery.init (location : String)
    (subset_func : List Tile → List Tile) : Query :=
  ⟨"What is the sum of the " ++ location ++ " tiles?",
   fun tiles => QueryAnswer.int (((subset_func tiles).map Tile.number).sum)⟩

/-- Embeds `CountQuery(feature, truthy_func)`: answers how many tiles
satisfy the predicate. -/
def CountQuery.init (feature : String) (truthy_func : Tile → Bool) : Query :=
  ⟨"How many " ++ feature ++ " tiles are there?",
   fun tiles =>
     QueryAnswer.int ((tiles.map truthy_func).count true : Int)⟩

/-- Embeds `AdjacencyQuery(feature, truthy_func)`: scans consecutive pairs
and collects (as a set) both indices of every related pair. -/
def AdjacencyQuery.init (feature : String)
    (truthy_func : Tile → Tile → Bool) : Query :=
  ⟨"Which adjacent tiles are " ++ feature ++ "?",
   fun tiles =>
     QueryAnswer.indices
       ((List.range (tiles.length - 1)).foldl
         (fun ret i =>
           if truthy_func (tiles.getD i default) (tiles.getD (i + 1) default)
           then (ret.insert i).insert (i + 1)
           else ret)
         [])⟩

/-- Models the Python slice `tiles[-1:-4:-1]`: up to the last three tiles,
taken right to left. -/
def pyRightSlice (tiles : List Tile) : List Tile := tiles.reverse.take 3

/-- The "right" sum clue of the catalog:
`SumQuery("right", lambda tiles: reversed(tiles[-1:-4:-1]))`. -/
def sumRightQuery : Query :=
  SumQuery.init "right" (fun tiles => (pyRightSlice tiles).reverse)

/-- Embeds `clue_factory()` (tiles.py): the fixed catalog of clue
definitions, in source order. -/
def clue_factory (_ : Unit) : List Query :=
  [ SumQuery.init "white"
      (fun tiles => tiles.filter (fun t => t.colour = Colours.WHITE)),
    SumQuery.init "black"
      (fun tiles => tiles.filter (fun t => t.colour = Colours.BLACK)),
    SumQuery.init "green"
      (fun tiles => tiles.filter (fun t => t.colour = Colours.GREEN)),
    sumRightQuery,
    SumQuery.init "left" (fun tiles => tiles.take 3),
    CountQuery.init "even" (fun t => t.number % 2 = 0),
    CountQuery.init "odd" (fun t => t.number % 2 = 1),
    CountQuery.init "white" (fun t => t.colour = Colours.WHITE),
    CountQuery.init "black" (fun t => t.colour = Colours.BLACK),
    CountQuery.init "greater than 5" (fun t => t.number > 5),
    CountQuery.init "less than 5" (fun t => t.number < 5),
    AdjacencyQuery.init "the same colour" (fun t1 t2 => t1.colour = t2.colour),
    AdjacencyQuery.init "sequential" (fun t1 t2 => t1.number + 1 = t2.number) ]

/-- A store of Python list objects, addressed by allocation index.  Used
to model CPython reference semantics for `Player.__init__`'s mutable
default argument `tiles=[]` (game.py line 71). -/
structure PyStore where
  lists : List (List Tile)
deriving DecidableEq, Repr

/-- Allocate a fresh list object, returning its reference. -/
def PyStore.alloc (s : PyStore) (init : List Tile) : PyStore × Nat :=
  (⟨s.lists ++ [init]⟩, s.lists.length)

/-- Dereference a list object. -/
def PyStore.read (s : PyStore) (r : Nat) : List Tile :=
  s.lists.getD r []

/-- In-place `list.append` on the referenced list object. -/
def PyStore.appendTile (s : PyStore) (r : Nat) (t : Tile) : PyStore :=
  ⟨s.lists.set r (s.lists.getD r [] ++ [t])⟩

/-- A `Player` as CPython holds it: the `tiles` attribute is a reference
to a list object in the store. -/
structure PlayerRef where
  tilesRef : Nat
  made_guess : Bool
  guessed_correctly : Bool
deriving DecidableEq, Repr

/-- Models CPython elaborating `def __init__(self, tiles=[])`: the default
list expression is evaluated once, at function-definition time, yielding
the single default list object shared by every later call that omits the
argument. -/
def playerDefaultSetup (s : PyStore) : PyStore × Nat :=
  s.alloc []

/-- Models `Player()` called without a tiles argument: `self.tiles` is
bound to the shared default list object (no fresh allocation). -/
def PlayerRef.initDefault (defaultRef : Nat) : PlayerRef :=
  ⟨defaultRef, false, false⟩

/-- The two-player aliasing experiment on `Player.__init__`'s default
argument: construct two players with no tiles argument, then append one
tile to the first player's tiles; return what each player's `tiles` then
reads as. -/
def defaultAliasExperiment (t : Tile) : List Tile × List Tile :=
  let (s0, d) := playerDefaultSetup ⟨[]⟩
  let a := PlayerRef.initDefault d
  let b := PlayerRef.initDefault d
  let s1 := s0.appendTile a.tilesRef t
  (s1.read a.tilesRef, s1.read b.tilesRef)

/-- A sample game used to exercise `expend_clue` with a non-empty
backlog. -/
def gSampleClue : Game := ⟨[], [], ["x"], ["a", "b"]⟩

/-- A sample player holding one tile, who has not guessed yet. -/
def pSample : Player := ⟨[⟨1, Colours.WHITE⟩], false, false⟩

/-- A sample game with one player who has not guessed. -/
def gSampleSubmit : Game := ⟨[("token0", pSample)], [⟨2, Colours.BLACK⟩], [], []⟩

/-- A sample player who has already guessed (incorrectly). -/
def pGuessed : Player := ⟨[⟨1, Colours.WHITE⟩], true, false⟩

/-- A sample game with one player who has already guessed. -/
def gSampleGuessed : Game :=
  ⟨[("token0", pGuessed)], [⟨2, Colours.BLACK⟩], [], []⟩

/-- A tile list is sorted ascending by the `Tile.sorting_func` key. -/
abbrev tileSorted (l : List Tile) : Prop :=
  l.Pairwise (fun a b => Tile.sorting_func a ≤ Tile.sorting_func b)

/-- Invariant: the solution and every player's hand are sorted ascending
by the tile ordering key. -/
abbrev HandsSorted (g : Game) : Prop :=
  tileSorted g.solution ∧ ∀ pr ∈ g.players, tileSorted pr.2.tiles

section Helpers

lemma sortTiles_perm (l : List Tile) : (sortTiles l).Perm l :=
  List.mergeSort_perm l tileLE

lemma length_sortTiles (l : List Tile) : (sortTiles l).length = l.length :=
  List.length_mergeSort l

lemma tileSorted_sortTiles (l : List Tile) : tileSorted (sortTiles l) := by
  have h := @List.sorted_mergeSort Tile tileLE
    (fun a b c hab hbc => by
      simp only [tileLE, decide_eq_true_eq] at hab hbc ⊢
      exact le_trans hab hbc)
    (fun a b => by
      simp only [tileLE, Bool.or_eq_true, decide_eq_true_eq]
      exact le_total _ _)
    l
  exact h.imp (fun hab => by
    simpa only [tileLE, decide_eq_true_eq] using hab)

lemma new_game_eq_three (g : Game) (clues : List String)
    (shs : List String → List String) (sht : List Tile → List Tile)
    (hcf : pyStrip (clues.headD "") = "IS_CLUES_FILE") :
    g.new_game 3 clues shs sht =
      (⟨[("token0", Player.init (sortTiles (((sht gameTilesDeck).drop 5).take 5))),
         ("token1", Player.init (sortTiles (((sht gameTilesDeck).drop 10).take 5))),
         ("token2", Player.init (sortTiles (((sht gameTilesDeck).drop 15).take 5)))],
        sortTiles ((sht gameTilesDeck).take 5),
        (shs (clues.tail.map pyStrip)).drop
          (min 6 (shs (clues.tail.map pyStrip)).length),
        (shs (clues.tail.map pyStrip)).take
          (min 6 (shs (clues.tail.map pyStrip)).length)⟩,
       Except.ok ["token0", "token1", "token2"]) := by
  rw [List.headD_eq_head?] at hcf
  simp [Game.new_game, hcf, List.range_succ, dictSet, List.enum, List.enumFrom,
        show "token" ++ toString 0 = "token0" from by decide,
        show "token" ++ toString 1 = "token1" from by decide,
        show "token" ++ toString 2 = "token2" from by decide]

lemma new_game_eq_four (g : Game) (clues : List String)
    (shs : List String → List String) (sht : List Tile → List Tile)
    (hcf : pyStrip (clues.headD "") = "IS_CLUES_FILE") :
    g.new_game 4 clues shs sht =
      (⟨[("token0", Player.init (sortTiles (((sht gameTilesDeck).drop 4).take 4))),
         ("token1", Player.init (sortTiles (((sht gameTilesDeck).drop 8).take 4))),
         ("token2", Player.init (sortTiles (((sht gameTilesDeck).drop 12).take 4))),
         ("token3", Player.init (sortTiles (((sht gameTilesDeck).drop 16).take 4)))],
        sortTiles ((sht gameTilesDeck).take 4),
        (shs (clues.tail.map pyStrip)).drop
          (min 6 (shs (clues.tail.map pyStrip)).length),
        (shs (clues.tail.map pyStrip)).take
          (min 6 (shs (clues.tail.map pyStrip)).length)⟩,
       Except.ok ["token0", "token1", "token2", "token3"]) := by
  rw [List.headD_eq_head?] at hcf
  simp [Game.new_game, hcf, List.range_succ, dictSet, List.enum, List.enumFrom,
        show "token" ++ toString 0 = "token0" from by decide,
        show "token" ++ toString 1 = "token1" from by decide,
        show "token" ++ toString 2 = "token2" from by decide,
        show "token" ++ toString 3 = "token3" from by decide]

lemma deck_length : gameTilesDeck.length = 20 := by decide

lemma split_concat_five (l : List Tile) (h : l.length = 20) :
    l.take 5 ++ ((l.drop 5).take 5 ++ ((l.drop 10).take 5 ++ (l.drop 15).take 5)) = l := by
  have h15 : (l.drop 15).take 5 = l.drop 15 :=
    List.take_of_length_le (by simp [h])
  rw [h15, show l.drop 15 = (l.drop 10).drop 5 from by
        rw [List.drop_drop],
      List.take_append_drop,
      show l.drop 10 = (l.drop 5).drop 5 from by rw [List.drop_drop],
      List.take_append_drop, List.take_append_drop]

lemma split_concat_four (l : List Tile) (h : l.length = 20) :
    l.take 4 ++ ((l.drop 4).take 4 ++ ((l.drop 8).take 4 ++
      ((l.drop 12).take 4 ++ (l.drop 16).take 4))) = l := by
  have h16 : (l.drop 16).take 4 = l.drop 16 :=
    List.take_of_length_le (by simp [h])
  rw [h16, show l.drop 16 = (l.drop 12).drop 4 from by
        rw [List.drop_drop],
      List.take_append_drop,
      show l.drop 12 = (l.drop 8).drop 4 from by rw [List.drop_drop],
      List.take_append_drop,
      show l.drop 8 = (l.drop 4).drop 4 from by rw [List.drop_drop],
      List.take_append_drop, List.take_append_drop]

lemma dictGet_mem {d : List (String × Player)} {k : String} {p : Player}
    (h : dictGet d k = some p) : (k, p) ∈ d := by
  induction d with
  | nil => simp [dictGet] at h
  | cons hd tl ih =>
    rw [dictGet] at h
    by_cases hk : hd.1 = k
    · simp [hk] at h
      subst h
      rw [← hk]
      simp
    · simp [hk] at h
      exact List.mem_cons_of_mem _ (ih h)

lemma mem_dictSet {d : List (String × Player)} {k : String} {v : Player}
    {x : String × Player} (h : x ∈ dictSet d k v) : x ∈ d ∨ x = (k, v) := by
  induction d with
  | nil => simpa [dictSet] using h
  | cons hd tl ih =>
    rw [dictSet] at h
    by_cases hk : hd.1 = k
    · simp [hk] at h
      rcases h with h | h
      · right
        exact h
      · left
        exact List.mem_cons_of_mem _ h
    · simp [hk] at h
      rcases h with h | h
      · left
        simp [h]
      · rcases ih h with h' | h'
        · left
          exact List.mem_cons_of_mem _ h'
        · right
          exact h'

lemma dictGet_dictSet_self (d : List (String × Player)) (k : String)
    (v : Player) : dictGet (dictSet d k v) k = some v := by
  induction d with
  | nil => simp [dictSet, dictGet]
  | cons hd tl ih =>
    rw [dictSet]
    by_cases hk : hd.1 = k
    · simp [dictGet, hk]
    · simp [dictGet, hk]
      exact ih

lemma take_three_reverse_reverse (l : List Tile) :
    (l.reverse.take 3).reverse = l.drop (l.length - 3) := by
  rw [List.take_reverse, List.reverse_reverse]

end Helpers

/-- C1 (counterexample): with an empty backlog, `expend_clue 0` on a
one-clue pool does not shrink the pool; it overwrites the slot with the
empty string, contradicting the claim that the slot is removed. -/
theorem C1_counterexample :
    ((⟨[], [], [], ["clueA"]⟩ : Game).expend_clue 0).1.current_clues = [""] ∧
    ¬ (((⟨[], [], [], ["clueA"]⟩ : Game).expend_clue 0).1.current_clues.length
        = 0) := by
  constructor
  · rfl
  · decide

/-- C1 (amended): for `0 ≤ i < |current_clues|`, `expend_clue i` succeeds;
with a non-empty backlog it overwrites slot `i` with the popped front of
the backlog, with an empty backlog it overwrites slot `i` with the empty
string; in both cases `|current_clues|` is unchanged. -/
theorem C1_expend_clue (g : Game) (i : Int) (h0 : 0 ≤ i)
    (h1 : i < (g.current_clues.length : Int)) :
    (g.backlog_clues ≠ [] →
      (g.expend_clue i).1.current_clues =
        g.current_clues.set i.toNat (g.backlog_clues.headD "") ∧
      (g.expend_clue i).1.backlog_clues = g.backlog_clues.tail) ∧
    (g.backlog_clues = [] →
      (g.expend_clue i).1.current_clues = g.current_clues.set i.toNat "" ∧
      (g.expend_clue i).1.backlog_clues = []) ∧
    (g.expend_clue i).1.current_clues.length = g.current_clues.length ∧
    (g.expend_clue i).2 = Except.ok () := by
  have hcond : ¬ (i < 0 ∨ i ≥ (g.current_clues.length : Int)) := by omega
  cases hb : g.backlog_clues with
  | nil => simp [Game.expend_clue, hcond, hb]
  | cons c rest => simp [Game.expend_clue, hcond, hb]

/-- C1 (witness): the amended statement at a concrete game with a
non-empty backlog. -/
theorem C1_expend_clue_witness :
    (gSampleClue.backlog_clues ≠ [] →
      (gSampleClue.expend_clue 0).1.current_clues =
        gSampleClue.current_clues.set (0 : Int).toNat
          (gSampleClue.backlog_clues.headD "") ∧
      (gSampleClue.expend_clue 0).1.backlog_clues =
        gSampleClue.backlog_clues.tail) ∧
    (gSampleClue.backlog_clues = [] →
      (gSampleClue.expend_clue 0).1.current_clues =
        gSampleClue.current_clues.set (0 : Int).toNat "" ∧
      (gSampleClue.expend_clue 0).1.backlog_clues = []) ∧
    (gSampleClue.expend_clue 0).1.current_clues.length =
      gSampleClue.current_clues.length ∧
    (gSampleClue.expend_clue 0).2 = Except.ok () :=
  C1_expend_clue gSampleClue 0 (by decide) (by decide)


/-- C4: `new_game 2` fails with the Not-Implemented error and
`new_game n` for `n < 2` or `n > 4` fails with the Invalid-Argument
error; in both cases the returned state is the fully-reset empty state
(no players, empty solution, empty clue pools). -/
theorem C4_new_game_failures (g : Game) (clues : List String)
    (shs : List String → List String) (sht : List Tile → List Tile)
    (np : Int) :
    (np < 2 ∨ np > 4 →
      g.new_game np clues shs sht =
        (Game.init, Except.error (GameError.invalidArgument
          "Number of players must be between 2 and 4 inclusive"))) ∧
    (np = 2 →
      g.new_game np clues shs sht =
        (Game.init, Except.error (GameError.notImplemented
          "2 player games are not supported at the moment"))) ∧
    Game.init.players = [] ∧ Game.init.solution = [] ∧
    Game.init.backlog_clues = [] ∧ Game.init.current_clues = [] := by
  refine ⟨?_, ?_, rfl, rfl, rfl, rfl⟩
  · intro h
    unfold Game.new_game
    rw [if_pos h]
  · intro h
    subst h
    unfold Game.new_game
    rw [if_neg (by omega), if_pos rfl]

/-- C4 (witness): the failure behaviour at the concrete inputs 1, 2, 5. -/
theorem C4_new_game_failures_witness :
    Game.init.new_game 1 [] id id =
      (Game.init, Except.error (GameError.invalidArgument
        "Number of players must be between 2 and 4 inclusive")) ∧
    Game.init.new_game 5 [] id id =
      (Game.init, Except.error (GameError.invalidArgument
        "Number of players must be between 2 and 4 inclusive")) ∧
    Game.init.new_game 2 [] id id =
      (Game.init, Except.error (GameError.notImplemented
        "2 player games are not supported at the moment")) :=
  ⟨(C4_new_game_failures Game.init [] id id 1).1 (by decide),
   (C4_new_game_failures Game.init [] id id 5).1 (by decide),
   (C4_new_game_failures Game.init [] id id 2).2.1 rfl⟩

/-- C6: for an existing player whose `made_guess` is already true,
`submit_solution` fails with the Already-Guessed error and returns the
game state unchanged; in particular the player's flags are unchanged. -/
theorem C6_submit_twice (g : Game) (pid : String) (sub : List Tile)
    (p : Player) (hp : dictGet g.players pid = some p)
    (hmg : p.made_guess = true) :
    g.submit_solution pid sub =
      (g, Except.error (GameError.invalidArgument
        "Player has already submitted a guess")) ∧
    dictGet (g.submit_solution pid sub).1.players pid = some p ∧
    ((g.submit_solution pid sub).1.players.map
        (fun pr => (pr.1, pr.2.made_guess, pr.2.guessed_correctly))) =
      (g.players.map
        (fun pr => (pr.1, pr.2.made_guess, pr.2.guessed_correctly))) := by
  have hmain : g.submit_solution pid sub =
      (g, Except.error (GameError.invalidArgument
        "Player has already submitted a guess")) := by
    unfold Game.submit_solution
    rw [hp]
    simp [hmg]
  refine ⟨hmain, ?_, ?_⟩
  · rw [hmain]
    exact hp
  · rw [hmain]

/-- C6 (witness): a second submission by a player who has guessed, at a
concrete game. -/
theorem C6_submit_twice_witness :
    gSampleGuessed.submit_solution "token0" [] =
      (gSampleGuessed, Except.error (GameError.invalidArgument
        "Player has already submitted a guess")) ∧
    dictGet (gSampleGuessed.submit_solution "token0" []).1.players "token0" =
      some pGuessed ∧
    ((gSampleGuessed.submit_solution "token0" []).1.players.map
        (fun pr => (pr.1, pr.2.made_guess, pr.2.guessed_correctly))) =
      (gSampleGuessed.players.map
        (fun pr => (pr.1, pr.2.made_guess, pr.2.guessed_correctly))) :=
  C6_submit_twice gSampleGuessed "token0" [] pGuessed (by decide) (by decide)


/-- C7 (counterexample): the clue catalog does not have 14 entries. -/
theorem C7_counterexample : ¬ ((clue_factory ()).length = 14) := by decide

/-- C7 (amended): the clue catalog factory returns a fixed ordered list of
exactly 13 clue definitions, the same list in the same order on every
call, independent of any game instance. -/
theorem C7_clue_factory :
    (clue_factory ()).length = 13 ∧
    (∀ u v : Unit, clue_factory u = clue_factory v) ∧
    (clue_factory ()).map Query.description =
      ["What is the sum of the white tiles?",
       "What is the sum of the black tiles?",
       "What is the sum of the green tiles?",
       "What is the sum of the right tiles?",
       "What is the sum of the left tiles?",
       "How many even tiles are there?",
       "How many odd tiles are there?",
       "How many white tiles are there?",
       "How many black tiles are there?",
       "How many greater than 5 tiles are there?",
       "How many less than 5 tiles are there?",
       "Which adjacent tiles are the same colour?",
       "Which adjacent tiles are sequential?"] := by
  refine ⟨rfl, fun u v => rfl, ?_⟩
  decide

/-- C9 (code_bug): `Player.__init__`'s mutable default `tiles=[]` is one
shared list object: constructing two players without a tile list and
appending a tile to the first player's tiles makes the same tile visible
in the second player's tiles, contradicting the claimed fresh container
per instance. -/
theorem C9_default_alias :
    defaultAliasExperiment ⟨1, Colours.WHITE⟩ =
      ([⟨1, Colours.WHITE⟩], [⟨1, Colours.WHITE⟩]) ∧
    ¬ ((defaultAliasExperiment ⟨1, Colours.WHITE⟩).2 = []) := by
  constructor
  · rfl
  · decide


/-- C10: tile construction accepts the colour as enum or as one of the
strings "white"/"black"/"green" (string and enum construction agree for
every in-range number), and fails with the Invalid-Argument error for an
out-of-range number or an unknown colour string. -/
theorem C10_tile_init (n : Int) (s : String) (c : Colours) :
    Colours.ofString "white" = some Colours.WHITE ∧
    Colours.ofString "black" = some Colours.BLACK ∧
    Colours.ofString "green" = some Colours.GREEN ∧
    (0 ≤ n → n ≤ 9 → Colours.ofString s = some c →
      Tile.init n (ColourArg.str s) = Except.ok ⟨n, c⟩ ∧
      Tile.init n (ColourArg.str s) = Tile.init n (ColourArg.enum c)) ∧
    (n < 0 ∨ n > 9 → ∀ col : ColourArg,
      Tile.init n col = Except.error (GameError.invalidArgument
        "Number must be between 0 and 9 inclusive")) ∧
    (0 ≤ n → n ≤ 9 → Colours.ofString s = none →
      Tile.init n (ColourArg.str s) =
        Except.error (GameError.invalidArgument "is not a valid Colours")) := by
  refine ⟨rfl, rfl, rfl, ?_, ?_, ?_⟩
  · intro h0 h9 hc
    have hrange : ¬ (n < 0 ∨ n > 9) := by omega
    constructor <;> simp [Tile.init, hrange, hc]
  · intro h col
    unfold Tile.init
    rw [if_pos h]
  · intro h0 h9 hc
    have hrange : ¬ (n < 0 ∨ n > 9) := by omega
    simp [Tile.init, hrange, hc]

/-- C10 (witness): string and enum construction agree at number 5 and
colour "green"; number 10 and colour "purple" fail. -/
theorem C10_tile_init_witness :
    (Tile.init 5 (ColourArg.str "green") = Except.ok ⟨5, Colours.GREEN⟩ ∧
     Tile.init 5 (ColourArg.str "green") =
       Tile.init 5 (ColourArg.enum Colours.GREEN)) ∧
    Tile.init 10 (ColourArg.enum Colours.WHITE) =
      Except.error (GameError.invalidArgument
        "Number must be between 0 and 9 inclusive") ∧
    Tile.init 5 (ColourArg.str "purple") =
      Except.error (GameError.invalidArgument "is not a valid Colours") :=
  ⟨(C10_tile_init 5 "green" Colours.GREEN).2.2.2.1 (by decide) (by decide) rfl,
   (C10_tile_init 10 "green" Colours.GREEN).2.2.2.2.1 (by decide)
     (ColourArg.enum Colours.WHITE),
   (C10_tile_init 5 "purple" Colours.GREEN).2.2.2.2.2 (by decide) (by decide)
     rfl⟩


/-- C8: the "rightmost 3" sum clue answers the sum of the numbers of the
last 3 tiles in original hand order (all tiles for shorter hands), and
the reverse-then-sum construction has no effect on the result. -/
theorem C8_sum_right (tiles : List Tile) :
    sumRightQuery.answer tiles =
      QueryAnswer.int (((tiles.drop (tiles.length - 3)).map Tile.number).sum) ∧
    (tiles.length < 3 →
      sumRightQuery.answer tiles =
        QueryAnswer.int ((tiles.map Tile.number).sum)) ∧
    ((pyRightSlice tiles).reverse.map Tile.number).sum =
      ((pyRightSlice tiles).map Tile.number).sum := by
  have key : (pyRightSlice tiles).reverse = tiles.drop (tiles.length - 3) :=
    take_three_reverse_reverse tiles
  have hval : sumRightQuery.answer tiles =
      QueryAnswer.int (((pyRightSlice tiles).reverse.map Tile.number).sum) :=
    rfl
  refine ⟨?_, ?_, ?_⟩
  · rw [hval, key]
  · intro h
    have h0 : tiles.length - 3 = 0 := by omega
    rw [hval, key, h0, List.drop_zero]
  · rw [List.map_reverse, List.sum_reverse]

/-- C8 (witness): the clue's answer on a 2-tile hand and a 4-tile hand. -/
theorem C8_sum_right_witness :
    sumRightQuery.answer [⟨1, Colours.WHITE⟩, ⟨2, Colours.BLACK⟩] =
      QueryAnswer.int 3 ∧
    sumRightQuery.answer
      [⟨9, Colours.WHITE⟩, ⟨1, Colours.WHITE⟩, ⟨2, Colours.BLACK⟩,
       ⟨3, Colours.GREEN⟩] = QueryAnswer.int 6 := by
  constructor
  · have h := (C8_sum_right [⟨1, Colours.WHITE⟩, ⟨2, Colours.BLACK⟩]).2.1
      (by decide)
    simpa using h
  · have h := (C8_sum_right
      [⟨9, Colours.WHITE⟩, ⟨1, Colours.WHITE⟩, ⟨2, Colours.BLACK⟩,
       ⟨3, Colours.GREEN⟩]).1
    simpa using h


/-- C5: a first submission by an existing player succeeds, sets
`made_guess`, and sets `guessed_correctly` exactly when the submission
equals the solution position by position; any reordering of the correct
tiles leaves `guessed_correctly` false. -/
theorem C5_submit_solution (g : Game) (pid : String) (sub : List Tile)
    (p : Player) (hp : dictGet g.players pid = some p)
    (hmg : p.made_guess = false) (hgc : p.guessed_correctly = false) :
    (g.submit_solution pid sub).2 = Except.ok () ∧
    ∃ p', dictGet (g.submit_solution pid sub).1.players pid = some p' ∧
      p'.tiles = p.tiles ∧
      p'.made_guess = true ∧
      (p'.guessed_correctly = true ↔ sub = g.solution) ∧
      (sub.Perm g.solution → sub ≠ g.solution →
        p'.guessed_correctly = false) := by
  have hres : g.submit_solution pid sub =
      (⟨dictSet g.players pid
          ⟨p.tiles, true,
           if sub = g.solution then true else p.guessed_correctly⟩,
        g.solution, g.backlog_clues, g.current_clues⟩,
       Except.ok ()) := by
    unfold Game.submit_solution
    rw [hp]
    simp [hmg]
  rw [hres]
  refine ⟨rfl, ⟨_, dictGet_dictSet_self _ _ _, rfl, rfl, ?_, ?_⟩⟩
  · by_cases hs : sub = g.solution <;> simp [hs, hgc]
  · intro _ hne
    simp [hne, hgc]

/-- C5 (witness): a wrong-order permutation of the solution leaves
`guessed_correctly` false at a concrete game. -/
theorem C5_submit_solution_witness :
    (gSampleSubmit.submit_solution "token0" [⟨2, Colours.BLACK⟩]).2 =
      Except.ok () ∧
    ∃ p', dictGet
        (gSampleSubmit.submit_solution "token0"
          [⟨2, Colours.BLACK⟩]).1.players "token0" = some p' ∧
      p'.tiles = pSample.tiles ∧
      p'.made_guess = true ∧
      (p'.guessed_correctly = true ↔
        [⟨2, Colours.BLACK⟩] = gSampleSubmit.solution) ∧
      (List.Perm [⟨2, Colours.BLACK⟩] gSampleSubmit.solution →
        ¬ ([⟨2, Colours.BLACK⟩] = gSampleSubmit.solution) →
        p'.guessed_correctly = false) :=
  C5_submit_solution gSampleSubmit "token0" [⟨2, Colours.BLACK⟩] pSample
    (by decide) (by decide) (by decide)


/-- C2: for 3 or 4 players and a valid clues source, `new_game` returns
player ids "token0".."token{n-1}" in deal order, deals hands and solution
of size 5 (3 players) or 4 (4 players), and the solution together with
all hands is exactly the full 20-tile deck as a multiset. -/
theorem C2_new_game_deal (g : Game) (clues : List String)
    (shs : List String → List String) (sht : List Tile → List Tile)
    (np : Int) (hnp : np = 3 ∨ np = 4)
    (hcf : pyStrip (clues.headD "") = "IS_CLUES_FILE")
    (hperm : ∀ l : List Tile, (sht l).Perm l) :
    (g.new_game np clues shs sht).2 =
      Except.ok ((List.range np.toNat).map
        (fun i => "token" ++ toString i)) ∧
    (g.new_game np clues shs sht).1.players.map (fun pr => pr.1) =
      (List.range np.toNat).map (fun i => "token" ++ toString i) ∧
    (g.new_game np clues shs sht).1.players.length = np.toNat ∧
    (g.new_game np clues shs sht).1.solution.length =
      (if np = 3 then 5 else 4) ∧
    (∀ pr ∈ (g.new_game np clues shs sht).1.players,
      pr.2.tiles.length = (if np = 3 then 5 else 4)) ∧
    ((g.new_game np clues shs sht).1.solution ++
      ((g.new_game np clues shs sht).1.players.map
        (fun pr => pr.2.tiles)).flatten).Perm gameTilesDeck ∧
    gameTilesDeck =
      [⟨0, Colours.WHITE⟩, ⟨0, Colours.BLACK⟩, ⟨1, Colours.WHITE⟩,
       ⟨1, Colours.BLACK⟩, ⟨2, Colours.WHITE⟩, ⟨2, Colours.BLACK⟩,
       ⟨3, Colours.WHITE⟩, ⟨3, Colours.BLACK⟩, ⟨4, Colours.WHITE⟩,
       ⟨4, Colours.BLACK⟩, ⟨5, Colours.GREEN⟩, ⟨5, Colours.GREEN⟩,
       ⟨6, Colours.WHITE⟩, ⟨6, Colours.BLACK⟩, ⟨7, Colours.WHITE⟩,
       ⟨7, Colours.BLACK⟩, ⟨8, Colours.WHITE⟩, ⟨8, Colours.BLACK⟩,
       ⟨9, Colours.WHITE⟩, ⟨9, Colours.BLACK⟩] := by
  have hs := hperm gameTilesDeck
  have hlen : (sht gameTilesDeck).length = 20 := by
    rw [hs.length_eq]
    exact deck_length
  have hchunk : ∀ d k : Nat, d + k ≤ 20 →
      (((sht gameTilesDeck).drop d).take k).length = k := by
    intro d k hdk
    rw [List.length_take, List.length_drop, hlen]
    omega
  rcases hnp with h | h <;> subst h
  · rw [new_game_eq_three g clues shs sht hcf]
    refine ⟨by simp; decide, by simp; decide, by simp, ?_, ?_, ?_, by decide⟩
    · rw [if_pos rfl]
      rw [show (sht gameTilesDeck).take 5 =
            ((sht gameTilesDeck).drop 0).take 5 from by simp]
      rw [length_sortTiles]
      exact hchunk 0 5 (by omega)
    · intro pr hpr
      rw [if_pos rfl]
      simp only [List.mem_cons, List.not_mem_nil, or_false] at hpr
      rcases hpr with h | h | h <;>
        (subst h
         simp only [Player.init]
         rw [length_sortTiles]
         first
          | exact hchunk 5 5 (by omega)
          | exact hchunk 10 5 (by omega)
          | exact hchunk 15 5 (by omega))
    · simp only [List.map_cons, List.map_nil, List.flatten_cons,
        List.flatten_nil, List.append_nil, Player.init]
      have happ : ((sortTiles ((sht gameTilesDeck).take 5)) ++
          (sortTiles (((sht gameTilesDeck).drop 5).take 5) ++
           (sortTiles (((sht gameTilesDeck).drop 10).take 5) ++
            sortTiles (((sht gameTilesDeck).drop 15).take 5)))).Perm
          ((sht gameTilesDeck).take 5 ++
           (((sht gameTilesDeck).drop 5).take 5 ++
            (((sht gameTilesDeck).drop 10).take 5 ++
             ((sht gameTilesDeck).drop 15).take 5))) :=
        List.Perm.append (sortTiles_perm _)
          (List.Perm.append (sortTiles_perm _)
            (List.Perm.append (sortTiles_perm _) (sortTiles_perm _)))
      refine happ.trans ?_
      rw [split_concat_five _ hlen]
      exact hs
  · rw [new_game_eq_four g clues shs sht hcf]
    refine ⟨by simp; decide, by simp; decide, by simp, ?_, ?_, ?_, by decide⟩
    · rw [if_neg (by omega)]
      rw [show (sht gameTilesDeck).take 4 =
            ((sht gameTilesDeck).drop 0).take 4 from by simp]
      rw [length_sortTiles]
      exact hchunk 0 4 (by omega)
    · intro pr hpr
      rw [if_neg (by omega)]
      simp only [List.mem_cons, List.not_mem_nil, or_false] at hpr
      rcases hpr with h | h | h | h <;>
        (subst h
         simp only [Player.init]
         rw [length_sortTiles]
         first
          | exact hchunk 4 4 (by omega)
          | exact hchunk 8 4 (by omega)
          | exact hchunk 12 4 (by omega)
          | exact hchunk 16 4 (by omega))
    · simp only [List.map_cons, List.map_nil, List.flatten_cons,
        List.flatten_nil, List.append_nil, Player.init]
      have happ : ((sortTiles ((sht gameTilesDeck).take 4)) ++
          (sortTiles (((sht gameTilesDeck).drop 4).take 4) ++
           (sortTiles (((sht gameTilesDeck).drop 8).take 4) ++
            (sortTiles (((sht gameTilesDeck).drop 12).take 4) ++
             sortTiles (((sht gameTilesDeck).drop 16).take 4))))).Perm
          ((sht gameTilesDeck).take 4 ++
           (((sht gameTilesDeck).drop 4).take 4 ++
            (((sht gameTilesDeck).drop 8).take 4 ++
             (((sht gameTilesDeck).drop 12).take 4 ++
              ((sht gameTilesDeck).drop 16).take 4)))) :=
        List.Perm.append (sortTiles_perm _)
          (List.Perm.append (sortTiles_perm _)
            (List.Perm.append (sortTiles_perm _)
              (List.Perm.append (sortTiles_perm _) (sortTiles_perm _))))
      refine happ.trans ?_
      rw [split_concat_four _ hlen]
      exact hs


/-- C2 (witness): the deal properties at 3 players with the identity
shuffles. -/
theorem C2_new_game_deal_witness :
    (Game.init.new_game 3 ["IS_CLUES_FILE"] id id).2 =
      Except.ok ((List.range (3 : Int).toNat).map
        (fun i => "token" ++ toString i)) ∧
    (Game.init.new_game 3 ["IS_CLUES_FILE"] id id).1.players.map
        (fun pr => pr.1) =
      (List.range (3 : Int).toNat).map (fun i => "token" ++ toString i) ∧
    (Game.init.new_game 3 ["IS_CLUES_FILE"] id id).1.players.length =
      (3 : Int).toNat ∧
    (Game.init.new_game 3 ["IS_CLUES_FILE"] id id).1.solution.length =
      (if (3 : Int) = 3 then 5 else 4) ∧
    (∀ pr ∈ (Game.init.new_game 3 ["IS_CLUES_FILE"] id id).1.players,
      pr.2.tiles.length = (if (3 : Int) = 3 then 5 else 4)) ∧
    ((Game.init.new_game 3 ["IS_CLUES_FILE"] id id).1.solution ++
      ((Game.init.new_game 3 ["IS_CLUES_FILE"] id id).1.players.map
        (fun pr => pr.2.tiles)).flatten).Perm gameTilesDeck ∧
    gameTilesDeck =
      [⟨0, Colours.WHITE⟩, ⟨0, Colours.BLACK⟩, ⟨1, Colours.WHITE⟩,
       ⟨1, Colours.BLACK⟩, ⟨2, Colours.WHITE⟩, ⟨2, Colours.BLACK⟩,
       ⟨3, Colours.WHITE⟩, ⟨3, Colours.BLACK⟩, ⟨4, Colours.WHITE⟩,
       ⟨4, Colours.BLACK⟩, ⟨5, Colours.GREEN⟩, ⟨5, Colours.GREEN⟩,
       ⟨6, Colours.WHITE⟩, ⟨6, Colours.BLACK⟩, ⟨7, Colours.WHITE⟩,
       ⟨7, Colours.BLACK⟩, ⟨8, Colours.WHITE⟩, ⟨8, Colours.BLACK⟩,
       ⟨9, Colours.WHITE⟩, ⟨9, Colours.BLACK⟩] :=
  C2_new_game_deal Game.init ["IS_CLUES_FILE"] id id 3 (Or.inl rfl)
    (by decide) (fun l => List.Perm.refl l)

/-- C3: after a successful `new_game` the solution and every hand are
sorted ascending by the tile ordering key, and this is preserved by the
state-changing operations `submit_solution` and `expend_clue` (the
remaining operations, `get_character_tiles` and `get_winners`, are pure
reads). -/
theorem C3_hands_sorted (g0 : Game) (clues : List String)
    (shs : List String → List String) (sht : List Tile → List Tile)
    (np : Int) (hnp : np = 3 ∨ np = 4)
    (hcf : pyStrip (clues.headD "") = "IS_CLUES_FILE")
    (g : Game) (pid : String) (sub : List Tile) (i : Int)
    (hg : HandsSorted g) :
    HandsSorted (g0.new_game np clues shs sht).1 ∧
    HandsSorted (g.submit_solution pid sub).1 ∧
    HandsSorted (g.expend_clue i).1 := by
  refine ⟨?_, ?_, ?_⟩
  · rcases hnp with h | h <;> subst h
    · rw [new_game_eq_three g0 clues shs sht hcf]
      refine ⟨tileSorted_sortTiles _, ?_⟩
      intro pr hpr
      simp only [List.mem_cons, List.not_mem_nil, or_false] at hpr
      rcases hpr with h | h | h <;>
        (subst h; exact tileSorted_sortTiles _)
    · rw [new_game_eq_four g0 clues shs sht hcf]
      refine ⟨tileSorted_sortTiles _, ?_⟩
      intro pr hpr
      simp only [List.mem_cons, List.not_mem_nil, or_false] at hpr
      rcases hpr with h | h | h | h <;>
        (subst h; exact tileSorted_sortTiles _)
  · cases hdg : dictGet g.players pid with
    | none =>
      unfold Game.submit_solution
      rw [hdg]
      exact hg
    | some p =>
      unfold Game.submit_solution
      rw [hdg]
      by_cases hmg : p.made_guess = true
      · simp only [hmg, if_true]
        exact hg
      · simp only [hmg, if_false, Bool.false_eq_true]
        refine ⟨hg.1, ?_⟩
        intro pr hpr
        rcases mem_dictSet hpr with h | h
        · exact hg.2 pr h
        · subst h
          exact hg.2 (pid, p) (dictGet_mem hdg)
  · by_cases hcond : (i < 0 ∨ i ≥ (g.current_clues.length : Int))
    · unfold Game.expend_clue
      rw [if_pos hcond]
      exact hg
    · cases hb : g.backlog_clues with
      | nil =>
        unfold Game.expend_clue
        rw [if_neg hcond, hb]
        exact ⟨hg.1, hg.2⟩
      | cons c rest =>
        unfold Game.expend_clue
        rw [if_neg hcond, hb]
        exact ⟨hg.1, hg.2⟩

/-- C3 (witness): sortedness at a 3-player game dealt with the identity
shuffles, and preservation at a concrete sorted game. -/
theorem C3_hands_sorted_witness :
    HandsSorted (Game.init.new_game 3 ["IS_CLUES_FILE"] id id).1 ∧
    HandsSorted (gSampleSubmit.submit_solution "token0"
      [⟨2, Colours.BLACK⟩]).1 ∧
    HandsSorted (gSampleSubmit.expend_clue 0).1 :=
  C3_hands_sorted Game.init ["IS_CLUES_FILE"] id id 3 (Or.inl rfl)
    (by decide) gSampleSubmit "token0" [⟨2, Colours.BLACK⟩] 0 (by decide)

end CrackTheCode
